import Mathlib

/-
Verification of src/synapse/handlers/account_validity.py (AccountValidityHandler).

The handler methods are embedded shallowly as pure functions.  Every external
collaborator — the datastore, the profile store, the random-string source
(stringutils.random_string), the address parser (email.utils.parseaddr) and the
SMTP transport (sendmail) — is passed in as an explicit oracle giving the outcome
of each call, and a yielded call that can raise becomes an Except value.  The
handler runs inside Twisted inlineCallbacks generators: `yield d` on a Deferred d
is modelled by consuming the Except outcome of the corresponding oracle, while
binding a store call WITHOUT `yield` (which happens once, on line 168) binds the
Deferred object itself, not its result; that object is modelled explicitly by the
PyVal type below.  Trace structures record which side effects the handler
performed, in order, so that statements about "what was sent" and "what was
persisted" can be made.
-/

/-- A Python exception as it matters to this handler: StoreError (the only
exception class the handler ever catches, lines 99 and 162) versus every other
exception class. -/
inductive PyError where
  | storeError (code : Nat) (msg : String)
  | otherError (msg : String)
deriving DecidableEq

/-- True exactly for StoreError; an `except StoreError` clause catches precisely
these and lets every other exception propagate. -/
def PyError.isStoreError : PyError → Bool
  | .storeError _ _ => true
  | .otherError _ => false

/-- One row returned by store.user_get_threepids(user): a medium and an address. -/
structure Threepid where
  medium : String
  address : String
deriving DecidableEq

/-- Embeds _get_email_addresses_for_user (lines 143-152): from the threepids of
the user, keep the address of every threepid whose medium is "email", in order. -/
def get_email_addresses_for_user : List Threepid → List String
  | [] => []
  | t :: rest =>
    if t.medium = "email" then t.address :: get_email_addresses_for_user rest
    else get_email_addresses_for_user rest

/-- Embeds the loop body of _get_renewal_token (lines 154-164).  The Python loop
`while attempts < 5` is represented structurally: `fuel` is the number of
iterations the guard still allows (so `fuel = 5 - attempts`), and `attempts` is
the loop counter, used here to index the random-string oracle `gen` (the value of
the i-th call of stringutils.random_string(32)).  `write tok` is the outcome of
`yield store.set_renewal_token_for_user(user, tok)`.  The first component of the
result records every token generated; the second component is the Python result:
the persisted token (defer.returnValue, line 161), or the exception that escaped.
A StoreError from the write is caught (line 162) and the loop retries with a
fresh token; any other exception propagates; when the guard runs out the handler
raises StoreError(500, ...) (line 164). -/
def get_renewal_token_loop (gen : Nat → String) (write : String → Except PyError Unit) :
    Nat → Nat → List String × Except PyError String
  | _, 0 =>
    ([], .error (.storeError 500 "Couldn\x27t generate a unique string as refresh string."))
  | attempts, fuel + 1 =>
    let renewal_token := gen attempts
    match write renewal_token with
    | .ok _ => ([renewal_token], .ok renewal_token)
    | .error e =>
      if e.isStoreError = true then
        let p := get_renewal_token_loop gen write (attempts + 1) fuel
        (renewal_token :: p.1, p.2)
      else ([renewal_token], .error e)

/-- Embeds _get_renewal_token (lines 154-164): the loop starts at attempts = 0
with 5 allowed iterations. -/
def get_renewal_token (gen : Nat → String) (write : String → Except PyError Unit) :
    List String × Except PyError String :=
  get_renewal_token_loop gen write 0 5

/-- Embeds lines 93-100 of send_renewal_email_to_user.  `lookup` is the outcome
of the body of the try block, i.e. of
`yield store.get_profile_displayname(UserID.from_string(user).localpart)`
(an exception raised by UserID.from_string is part of that outcome, since the
call sits inside the try block).  A result of None falls back to the raw user id
(lines 97-98); a StoreError is caught and falls back to the raw user id
(lines 99-100); any other exception propagates, because the except clause names
only StoreError. -/
def resolve_display_name (lookup : Except PyError (Option String)) (user : String) :
    Except PyError String :=
  match lookup with
  | .ok (some name) => .ok name
  | .ok none => .ok user
  | .error e => if e.isStoreError = true then .ok user else .error e

/-- The oracles feeding one call of send_renewal_email_to_user: the threepids of
the user (result of the store read on line 91), the outcome of the display-name
lookup, the random-string source and token-write outcome for _get_renewal_token,
the address parser email.utils.parseaddr (line 121, modelled as the function
taking an address to its extracted raw addr-spec), and the per-recipient outcome
of the sendmail transport call (lines 132-141). -/
structure EmailEnv where
  threepids : List Threepid
  lookup_result : Except PyError (Option String)
  gen : Nat → String
  write : String → Except PyError Unit
  parseaddr : String → String
  sendmail : String → Except PyError Unit

/-- The observable side effects of one call of send_renewal_email_to_user:
`display_name` is the value of the user_display_name variable placed into
template_vars (line 109), if control reached that assignment; `token` is the
renewal token persisted by _get_renewal_token (line 102), if control reached a
successful write; `attempted` lists the raw_to recipients for which the sendmail
transport was actually invoked, in order. -/
structure SendTrace where
  display_name : Option String
  token : Option String
  attempted : List String
deriving DecidableEq

/-- Embeds the per-address dispatch loop (lines 120-141): for each address, in
order, compute raw_to = parseaddr(address) and `yield sendmail(...)` to it.
There is no try/except around the sendmail call, so the first transport failure
propagates out of the loop: later addresses are not attempted.  The first
component records the recipients for which sendmail was invoked; the second is
the outcome of the loop. -/
def send_loop (pa : String → String) (sm : String → Except PyError Unit) :
    List String → List String × Except PyError Unit
  | [] => ([], .ok ())
  | address :: rest =>
    let raw_to := pa address
    match sm raw_to with
    | .ok _ =>
      let p := send_loop pa sm rest
      (raw_to :: p.1, p.2)
    | .error e => ([raw_to], .error e)

/-- Embeds send_renewal_email_to_user (lines 89-141): resolve the addresses of
the user (line 91), resolve the display name (lines 93-100), obtain a renewal
token (line 102; a failure of _get_renewal_token propagates), render the bodies
(pure, lines 103-118), then run the per-address dispatch loop (lines 120-141).
The SendTrace records what was done; the Except is the outcome of the whole
call. -/
def send_renewal_email_to_user (env : EmailEnv) (user : String) (expiration_ts : Int) :
    SendTrace × Except PyError Unit :=
  let addresses := get_email_addresses_for_user env.threepids
  match resolve_display_name env.lookup_result user with
  | .error e => ({ display_name := none, token := none, attempted := [] }, .error e)
  | .ok dn =>
    match (get_renewal_token env.gen env.write).2 with
    | .error e => ({ display_name := some dn, token := none, attempted := [] }, .error e)
    | .ok tok =>
      let p := send_loop env.parseaddr env.sendmail addresses
      ({ display_name := some dn, token := some tok, attempted := p.1 }, p.2)

/-- Embeds send_renewal_emails (lines 74-87): for each expiring user (a pair of
user_id and expiration_ts_ms from store.get_users_expiring_soon), yield
send_renewal_email_to_user and then yield store.set_renewal_mail_status(user,
email_sent=True).  There is no try/except in the loop: an exception from the
per-user send propagates out of the generator, so the remaining users are not
processed.  The status write is an external store operation; the spec gives
setNotified no failure case, so it is modelled as always succeeding.  The first
component lists the users for which set_renewal_mail_status(True) was invoked,
in order; the second is the outcome of the whole cycle.  `envOf u` gives the
oracle outcomes for the processing of user u. -/
def send_renewal_emails (envOf : String → EmailEnv) :
    List (String × Int) → List String × Except PyError Unit
  | [] => ([], .ok ())
  | (u, ts) :: rest =>
    match (send_renewal_email_to_user (envOf u) u ts).2 with
    | .error e => ([], .error e)
    | .ok _ =>
      let p := send_renewal_emails envOf rest
      (u :: p.1, p.2)

/-- Embeds lines 45-58 of the constructor: inside one try block, substitute the
app name into the subject template and then into the from template; if either
substitution raises, the except block assigns BOTH the bare configured strings.
`subst t` is the outcome of the Python expression `t % {"app": app_name}` on
template t.  The function is total: initialization continues in every case. -/
def init_email_strings (subjT fromT : String) (subst : String → Except PyError String) :
    String × String :=
  match subst subjT with
  | .error _ => (subjT, fromT)
  | .ok s =>
    match subst fromT with
    | .error _ => (subjT, fromT)
    | .ok f => (s, f)

/-- A value as the Python of renew_account sees it: either an actual user-id
string, or the unawaited Deferred returned by
store.get_user_from_renewal_token(renewal_token).  Line 168 reads
`user = self.store.get_user_from_renewal_token(renewal_token)` with no `yield`
inside an inlineCallbacks generator — every other store call in this file is
yielded — so the variable user is bound to the Deferred object itself, not to
the looked-up user id. -/
inductive PyVal where
  | str (s : String)
  | deferredLookup (renewal_token : String)
deriving DecidableEq

/-- The stored state of one account: expiration_ts in milliseconds and the
notified (renewal-email-sent) flag. -/
structure Account where
  expiration_ts : Int
  notified : Bool
deriving DecidableEq

/-- The store state relevant to renewal: accounts keyed by user id, and the
renewal-token table mapping each token to its user id. -/
structure StoreState where
  accounts : List (String × Account)
  tokens : List (String × String)
deriving DecidableEq

/-- Modelled from the spec: the AccountStore gateway operation
getExpirationByToken(token) -> accountId | NotFound (section 6 of the spec); the
datastore implementation is not part of this repository excerpt.  This is the
result the Deferred of store.get_user_from_renewal_token would deliver if it
were awaited: the mapped user id, or a StoreError NotFound for an unmapped
token. -/
def get_user_from_renewal_token (st : StoreState) (renewal_token : String) :
    Except PyError String :=
  match st.tokens.lookup renewal_token with
  | some u => .ok u
  | none => .error (.storeError 404 "No user_id for token")

/-- Modelled from the spec: the AccountStore gateway operation
setExpiration(accountId, ts), which persists the new expiration for the mapped
account and logically clears the notified flag (sections 4.4 and 6 of the spec);
the datastore implementation is not part of this repository excerpt.  The
handler passes its local variable user as the account key, and because of the
missing yield that variable holds a PyVal, so the model takes a PyVal: exactly
the rows whose user-id string equals that value are updated.  The spec gives
this operation no failure case. -/
def renew_account_for_user (st : StoreState) (user : PyVal) (new_expiration_ts : Int) :
    StoreState :=
  { st with
    accounts := st.accounts.map (fun p =>
      if PyVal.str p.1 = user then (p.1, { expiration_ts := new_expiration_ts, notified := false })
      else p) }

/-- Embeds renew_account (lines 166-175).  Line 168 binds user to the unawaited
Deferred of the token lookup (no yield), so no StoreError from the lookup can
reach this function and the Deferred object itself is what is passed to
renew_account_for_user as the user key.  new_expiration_date = now + period
(line 170).  The function returns the post-state of the store; the Python
function returns None on completion and raises nothing on this path, which the
Except layer makes explicit. -/
def renew_account (st : StoreState) (period : Int) (now : Int) (renewal_token : String) :
    Except PyError StoreState :=
  let user : PyVal := .deferredLookup renewal_token
  let new_expiration_date := now + period
  .ok (renew_account_for_user st user new_expiration_date)

/-- A nominal oracle environment for a user with no email threepids: the
display-name lookup succeeds, the first token write succeeds, the transport
always succeeds (and is never invoked, since there is no address). -/
def okEnv : EmailEnv :=
  { threepids := []
    lookup_result := .ok (some "User Two")
    gen := fun _ => "tkn-u2"
    write := fun _ => .ok ()
    parseaddr := fun s => s
    sendmail := fun _ => .ok () }

/-- An oracle environment for a user with one email address whose transport send
fails: everything up to the sendmail call succeeds, and the sendmail call raises
a (non-StoreError) transport exception. -/
def failEnv : EmailEnv :=
  { threepids := [{ medium := "email", address := "one@example.com" }]
    lookup_result := .ok (some "User One")
    gen := fun _ => "tkn-u1"
    write := fun _ => .ok ()
    parseaddr := fun s => s
    sendmail := fun _ => .error (.otherError "smtp down") }

/-- Unfolding equation for the exhausted case of the token loop. -/
theorem get_renewal_token_loop_zero (gen : Nat → String)
    (write : String → Except PyError Unit) (a : Nat) :
    get_renewal_token_loop gen write a 0
      = ([], .error (.storeError 500
          "Couldn\x27t generate a unique string as refresh string.")) := rfl

/-- One successful iteration of the token loop: the write accepts the generated
token, which is returned. -/
theorem get_renewal_token_loop_ok (gen : Nat → String)
    (write : String → Except PyError Unit) (a fuel : Nat)
    (h : write (gen a) = .ok ()) :
    get_renewal_token_loop gen write a (fuel + 1) = ([gen a], .ok (gen a)) := by
  simp [get_renewal_token_loop, h]

/-- One colliding iteration of the token loop: the write raises StoreError, the
loop retries with the next generated token. -/
theorem get_renewal_token_loop_collide (gen : Nat → String)
    (write : String → Except PyError Unit) (a fuel : Nat) (c : Nat) (m : String)
    (h : write (gen a) = .error (.storeError c m)) :
    get_renewal_token_loop gen write a (fuel + 1)
      = (gen a :: (get_renewal_token_loop gen write (a + 1) fuel).1,
         (get_renewal_token_loop gen write (a + 1) fuel).2) := by
  simp [get_renewal_token_loop, h, PyError.isStoreError]

/-- C1: the spec states that redeeming a valid token sets the stored
expiration_ts of the mapped account to exactly now + validityPeriod.  The code
does not: line 168 lacks the `yield`, so the store update is keyed by the
unawaited Deferred instead of the mapped user id, and the mapped account is
never updated.  Concretely: token tok1 maps to account @u1:test holding
expiration_ts 100; renew_account at now = 1000 with period = 50 completes and
leaves the whole store, in particular that expiration_ts, unchanged instead of
setting it to 1050. -/
theorem renew_account_mapped_account_not_updated :
    get_user_from_renewal_token
        { accounts := [("@u1:test", { expiration_ts := 100, notified := true })]
          tokens := [("tok1", "@u1:test")] } "tok1" = .ok "@u1:test"
    ∧ renew_account
        { accounts := [("@u1:test", { expiration_ts := 100, notified := true })]
          tokens := [("tok1", "@u1:test")] } 50 1000 "tok1"
      = .ok { accounts := [("@u1:test", { expiration_ts := 100, notified := true })]
              tokens := [("tok1", "@u1:test")] } :=
  ⟨rfl, rfl⟩

/-- C2: the spec states that redeeming a token with no store mapping fails with
UnknownToken and changes nothing.  The state is indeed left unchanged, but the
call does not fail: the NotFound failure stays inside the unawaited Deferred of
line 168, so renew_account completes without raising.  Concretely: the token
"missing" has no mapping (the awaited lookup would deliver StoreError 404), yet
renew_account returns normally with the store unchanged. -/
theorem renew_account_unknown_token_not_rejected :
    get_user_from_renewal_token
        { accounts := [("@u1:test", { expiration_ts := 100, notified := false })]
          tokens := [("tok1", "@u1:test")] } "missing"
      = .error (.storeError 404 "No user_id for token")
    ∧ renew_account
        { accounts := [("@u1:test", { expiration_ts := 100, notified := false })]
          tokens := [("tok1", "@u1:test")] } 50 1000 "missing"
      = .ok { accounts := [("@u1:test", { expiration_ts := 100, notified := false })]
              tokens := [("tok1", "@u1:test")] } :=
  ⟨rfl, rfl⟩

/-- C3: token issuance makes at most 5 generation attempts.  First conjunct: if
the store reports a write conflict (StoreError) for each of the first 5
generated tokens, the result is StoreError 500 (TokenGenerationExhausted) after
generating exactly the 5 tokens gen 0 .. gen 4 — no 6th attempt is made, since
the conclusion holds whatever `write` does on later tokens.  Second conjunct: if
the first k attempts collide and the write of gen k succeeds (k < 5), the
persisted token gen k is returned. -/
theorem renewal_token_retry_bound (gen : Nat → String)
    (write : String → Except PyError Unit) :
    ((∀ i, i < 5 → ∃ c m, write (gen i) = .error (.storeError c m)) →
      get_renewal_token gen write
        = ([gen 0, gen 1, gen 2, gen 3, gen 4],
           .error (.storeError 500
             "Couldn\x27t generate a unique string as refresh string.")))
    ∧ (∀ k, k < 5 → (∀ i, i < k → ∃ c m, write (gen i) = .error (.storeError c m)) →
        write (gen k) = .ok () → (get_renewal_token gen write).2 = .ok (gen k)) := by
  constructor
  · intro hall
    obtain ⟨c0, m0, h0⟩ := hall 0 (by omega)
    obtain ⟨c1, m1, h1⟩ := hall 1 (by omega)
    obtain ⟨c2, m2, h2⟩ := hall 2 (by omega)
    obtain ⟨c3, m3, h3⟩ := hall 3 (by omega)
    obtain ⟨c4, m4, h4⟩ := hall 4 (by omega)
    simp [get_renewal_token,
      get_renewal_token_loop_collide gen write 0 4 c0 m0 h0,
      get_renewal_token_loop_collide gen write 1 3 c1 m1 h1,
      get_renewal_token_loop_collide gen write 2 2 c2 m2 h2,
      get_renewal_token_loop_collide gen write 3 1 c3 m3 h3,
      get_renewal_token_loop_collide gen write 4 0 c4 m4 h4,
      get_renewal_token_loop_zero]
  · intro k hk hlt hok
    interval_cases k
    · simp [get_renewal_token, get_renewal_token_loop_ok gen write 0 4 hok]
    · obtain ⟨c0, m0, h0⟩ := hlt 0 (by omega)
      simp [get_renewal_token,
        get_renewal_token_loop_collide gen write 0 4 c0 m0 h0,
        get_renewal_token_loop_ok gen write 1 3 hok]
    · obtain ⟨c0, m0, h0⟩ := hlt 0 (by omega)
      obtain ⟨c1, m1, h1⟩ := hlt 1 (by omega)
      simp [get_renewal_token,
        get_renewal_token_loop_collide gen write 0 4 c0 m0 h0,
        get_renewal_token_loop_collide gen write 1 3 c1 m1 h1,
        get_renewal_token_loop_ok gen write 2 2 hok]
    · obtain ⟨c0, m0, h0⟩ := hlt 0 (by omega)
      obtain ⟨c1, m1, h1⟩ := hlt 1 (by omega)
      obtain ⟨c2, m2, h2⟩ := hlt 2 (by omega)
      simp [get_renewal_token,
        get_renewal_token_loop_collide gen write 0 4 c0 m0 h0,
        get_renewal_token_loop_collide gen write 1 3 c1 m1 h1,
        get_renewal_token_loop_collide gen write 2 2 c2 m2 h2,
        get_renewal_token_loop_ok gen write 3 1 hok]
    · obtain ⟨c0, m0, h0⟩ := hlt 0 (by omega)
      obtain ⟨c1, m1, h1⟩ := hlt 1 (by omega)
      obtain ⟨c2, m2, h2⟩ := hlt 2 (by omega)
      obtain ⟨c3, m3, h3⟩ := hlt 3 (by omega)
      simp [get_renewal_token,
        get_renewal_token_loop_collide gen write 0 4 c0 m0 h0,
        get_renewal_token_loop_collide gen write 1 3 c1 m1 h1,
        get_renewal_token_loop_collide gen write 2 2 c2 m2 h2,
        get_renewal_token_loop_collide gen write 3 1 c3 m3 h3,
        get_renewal_token_loop_ok gen write 4 0 hok]

/-- Witness for C3: with a store double that always reports collision the call
fails with the 500 error after exactly 5 generated tokens; with a store that
accepts the 3rd generated token, that token is returned. -/
theorem renewal_token_retry_bound_witness :
    get_renewal_token (fun _ => "tok") (fun _ => .error (.storeError 409 "conflict"))
      = (["tok", "tok", "tok", "tok", "tok"],
         .error (.storeError 500
           "Couldn\x27t generate a unique string as refresh string."))
    ∧ (get_renewal_token (fun i => if i = 2 then "c" else "x")
        (fun t => if t = "c" then .ok () else .error (.storeError 409 "conflict"))).2
      = .ok "c" := by
  constructor
  · exact (renewal_token_retry_bound (fun _ => "tok")
      (fun _ => .error (.storeError 409 "conflict"))).1
      (fun i _ => ⟨409, "conflict", rfl⟩)
  · exact (renewal_token_retry_bound (fun i => if i = 2 then "c" else "x")
      (fun t => if t = "c" then .ok () else .error (.storeError 409 "conflict"))).2
      2 (by omega)
      (fun i hi => ⟨409, "conflict", by interval_cases i <;> rfl⟩)
      rfl

/-- C4: the spec requires that a failure while processing one account not abort
the remaining candidates of the scan cycle.  The code has no per-account error
capture: the for loop of send_renewal_emails (lines 78-87) lets the exception
propagate, aborting the batch.  Concretely: two expiring users, where sending to
@u1:test fails with a transport error; the cycle ends with that error, marks
nobody as notified, and never processes @u2:test — whose own processing would
have succeeded, as the second conjunct shows. -/
theorem scan_cycle_aborts_on_account_failure :
    send_renewal_emails (fun u => if u = "@u1:test" then failEnv else okEnv)
        [("@u1:test", 0), ("@u2:test", 0)]
      = ([], .error (.otherError "smtp down"))
    ∧ (send_renewal_email_to_user okEnv "@u2:test" 0).2 = .ok () :=
  ⟨rfl, rfl⟩

/-- C5 (amended): the per-address dispatch loop attempts addresses in order and
stops at the first transport failure.  First conjunct: if the transport accepts
every address, all of them are attempted and the dispatch succeeds.  Second
conjunct: if the addresses before `a` all succeed and sending to `a` fails, the
loop attempts exactly those addresses and `a`, reports the failure, and never
attempts the addresses after `a` — even though some of them might have
succeeded. -/
theorem send_loop_aborts_on_first_failure (pa : String → String)
    (sm : String → Except PyError Unit) :
    (∀ zs : List String, (∀ x ∈ zs, sm (pa x) = .ok ()) →
      send_loop pa sm zs = (zs.map pa, .ok ()))
    ∧ (∀ (xs : List String) (a : String) (ys : List String) (e : PyError),
        (∀ x ∈ xs, sm (pa x) = .ok ()) → sm (pa a) = .error e →
        send_loop pa sm (xs ++ a :: ys) = (xs.map pa ++ [pa a], .error e)) := by
  constructor
  · intro zs hok
    induction zs with
    | nil => simp [send_loop]
    | cons x rest ih =>
      have hx : sm (pa x) = .ok () := hok x (List.mem_cons_self _ _)
      have h2 := ih (fun y hy => hok y (List.mem_cons_of_mem _ hy))
      simp [send_loop, hx, h2]
  · intro xs a ys e hok hfail
    induction xs with
    | nil => simp [send_loop, hfail]
    | cons x rest ih =>
      have hx : sm (pa x) = .ok () := hok x (List.mem_cons_self _ _)
      have h2 := ih (fun y hy => hok y (List.mem_cons_of_mem _ hy))
      simp [send_loop, hx, h2]

/-- Counterexample to C5 as stated: two addresses a and b; sending to a fails
while the transport would accept b.  The dispatch attempts only a (b is not in
the attempted list) and reports failure, although not every destination failed:
the claim would require the attempt to b to happen and the operation to succeed. -/
theorem send_loop_second_address_not_attempted :
    send_loop (fun s => s)
        (fun s => if s = "a" then .error (.otherError "connection refused") else .ok ())
        ["a", "b"]
      = (["a"], .error (.otherError "connection refused"))
    ∧ ((fun s => if s = "a" then .error (.otherError "connection refused") else .ok () :
        String → Except PyError Unit)) "b"
      = .ok () :=
  ⟨rfl, rfl⟩

/-- Witness for C5 (amended): on concrete inputs, an all-accepting transport
attempts both addresses and succeeds, and a transport failing on the middle
address of three attempts exactly the first two and reports the failure. -/
theorem send_loop_aborts_witness :
    send_loop (fun s => s) (fun _ => .ok ()) ["x", "y"] = (["x", "y"], .ok ())
    ∧ send_loop (fun s => s)
        (fun s => if s = "y" then .error (.otherError "fail") else .ok ())
        ["x", "y", "z"]
      = (["x", "y"], .error (.otherError "fail")) := by
  constructor
  · have h := (send_loop_aborts_on_first_failure (fun s => s) (fun _ => .ok ())).1
      ["x", "y"] (fun x _ => rfl)
    simpa using h
  · have h := (send_loop_aborts_on_first_failure (fun s => s)
      (fun s => if s = "y" then .error (.otherError "fail") else .ok ())).2
      ["x"] "y" ["z"] (.otherError "fail")
      (fun x hx => by
        simp only [List.mem_singleton] at hx
        subst hx
        rfl)
      rfl
    simpa using h

/-- C6: the notified flag (set_renewal_mail_status with email_sent=True) is set
for a user only if the dispatch of the renewal email to that user completed
successfully: every user in the marked list of a scan cycle has a successful
send_renewal_email_to_user outcome.  In particular a user whose dispatch failed
is never marked.  This holds by the sequencing of lines 79-87: the status write
is reached only after the yield of the send completes without raising. -/
theorem set_notified_only_after_ok_dispatch (envOf : String → EmailEnv)
    (users : List (String × Int)) (u : String)
    (hmem : u ∈ (send_renewal_emails envOf users).1) :
    ∃ ts, (u, ts) ∈ users ∧ (send_renewal_email_to_user (envOf u) u ts).2 = .ok () := by
  induction users with
  | nil => simp [send_renewal_emails] at hmem
  | cons head rest ih =>
    obtain ⟨v, ts⟩ := head
    rcases hE : (send_renewal_email_to_user (envOf v) v ts).2 with e | u0
    · simp [send_renewal_emails, hE] at hmem
    · cases u0
      simp only [send_renewal_emails, hE] at hmem
      rcases List.mem_cons.mp hmem with h | h
      · subst h
        exact ⟨ts, List.mem_cons_self _ _, hE⟩
      · obtain ⟨ts2, hin, hok⟩ := ih h
        exact ⟨ts2, List.mem_cons_of_mem _ hin, hok⟩

/-- Witness for C6: in a cycle over the single user @u2:test with the nominal
environment, that user is marked, and the theorem yields the successful dispatch
outcome behind it. -/
theorem set_notified_only_after_ok_dispatch_witness :
    ∃ ts, ("@u2:test", ts) ∈ [("@u2:test", (7 : Int))]
      ∧ (send_renewal_email_to_user ((fun _ => okEnv) "@u2:test") "@u2:test" ts).2
        = .ok () :=
  set_notified_only_after_ok_dispatch (fun _ => okEnv) [("@u2:test", 7)] "@u2:test"
    (by decide)

/-- C7 (amended): if the display-name lookup raises a StoreError or returns no
name, the handler falls back to the raw user id and the processing of the
account continues exactly as if the lookup had returned that raw id — in
particular the email is composed with the raw id as display name.  (An
exception of any other class raised by the lookup is NOT caught: the except
clause on line 99 names only StoreError; see the counterexample.) -/
theorem display_name_fallback_storeerror_or_none (env : EmailEnv) (user : String)
    (ts : Int)
    (h : (∃ c m, env.lookup_result = .error (.storeError c m))
        ∨ env.lookup_result = .ok none) :
    send_renewal_email_to_user env user ts
      = send_renewal_email_to_user { env with lookup_result := .ok (some user) } user ts := by
  obtain ⟨tp, lr, g, w, p, s⟩ := env
  rcases h with ⟨c, m, hE⟩ | hE <;>
    simp_all [send_renewal_email_to_user, resolve_display_name, PyError.isStoreError]

/-- Counterexample to C7 as stated: a lookup failing with a non-StoreError
exception does not fall back to the raw user id — the exception propagates and
aborts the processing of the account: no display name is ever bound, no token is
issued, nothing is sent.  The claim would require the email to be composed with
the raw id as display name and the processing to continue. -/
theorem display_name_other_error_aborts :
    ¬ ((send_renewal_email_to_user
          { threepids := [{ medium := "email", address := "a@example.com" }]
            lookup_result := .error (.otherError "boom")
            gen := fun _ => "tkn"
            write := fun _ => .ok ()
            parseaddr := fun s => s
            sendmail := fun _ => .ok () } "@u:test" 0).1.display_name = some "@u:test"
       ∧ (send_renewal_email_to_user
          { threepids := [{ medium := "email", address := "a@example.com" }]
            lookup_result := .error (.otherError "boom")
            gen := fun _ => "tkn"
            write := fun _ => .ok ()
            parseaddr := fun s => s
            sendmail := fun _ => .ok () } "@u:test" 0).2 = .ok ()) := by
  intro hcl
  have h1 := hcl.1
  simp [send_renewal_email_to_user, resolve_display_name, PyError.isStoreError] at h1

/-- Witness for C7 (amended): with a lookup that raises StoreError 404, the
processing of @u3:test is identical to the processing with a lookup returning
the raw id @u3:test. -/
theorem display_name_fallback_witness :
    send_renewal_email_to_user
        { threepids := []
          lookup_result := .error (.storeError 404 "no profile")
          gen := fun _ => "tkn"
          write := fun _ => .ok ()
          parseaddr := fun s => s
          sendmail := fun _ => .ok () } "@u3:test" 0
      = send_renewal_email_to_user
        { threepids := []
          lookup_result := .ok (some "@u3:test")
          gen := fun _ => "tkn"
          write := fun _ => .ok ()
          parseaddr := fun s => s
          sendmail := fun _ => .ok () } "@u3:test" 0 :=
  display_name_fallback_storeerror_or_none _ "@u3:test" 0 (Or.inl ⟨404, "no profile", rfl⟩)

/-- C8: for an account whose resolved email-address list is empty, the dispatch
loop invokes the transport for no recipient and completes without error — a
no-op reported as success, whatever the transport would have done. -/
theorem dispatch_empty_addresses_noop (tps : List Threepid) (pa : String → String)
    (sm : String → Except PyError Unit)
    (h : get_email_addresses_for_user tps = []) :
    send_loop pa sm (get_email_addresses_for_user tps) = ([], .ok ()) := by
  rw [h]
  rfl

/-- Witness for C8: a user whose only threepid is a phone number resolves to no
email address, and the dispatch loop is a successful no-op even over a transport
that would fail every send. -/
theorem dispatch_empty_addresses_noop_witness :
    get_email_addresses_for_user [{ medium := "msisdn", address := "447700900000" }] = []
    ∧ send_loop (fun s => s) (fun _ => .error (.otherError "transport down"))
        (get_email_addresses_for_user [{ medium := "msisdn", address := "447700900000" }])
      = ([], .ok ()) :=
  ⟨rfl, dispatch_empty_addresses_noop _ _ _ rfl⟩

/-- C9: for an account with no resolved email address, selected by a scan cycle,
the per-account processing still issues and persists a renewal token (line 102
runs before the address loop) and the scanner still marks the account notified,
although no send is attempted: the trace shows the persisted token and an empty
attempted list, and the one-user cycle marks the user. -/
theorem empty_address_account_token_and_notify (env : EmailEnv) (user : String)
    (ts : Int) (dn tok : String)
    (ha : get_email_addresses_for_user env.threepids = [])
    (hdn : resolve_display_name env.lookup_result user = .ok dn)
    (htok : (get_renewal_token env.gen env.write).2 = .ok tok) :
    send_renewal_email_to_user env user ts
      = ({ display_name := some dn, token := some tok, attempted := [] }, .ok ())
    ∧ send_renewal_emails (fun _ => env) [(user, ts)] = ([user], .ok ()) := by
  have h1 : send_renewal_email_to_user env user ts
      = ({ display_name := some dn, token := some tok, attempted := [] }, .ok ()) := by
    simp [send_renewal_email_to_user, hdn, htok, ha, send_loop]
  refine ⟨h1, ?_⟩
  simp [send_renewal_emails, h1]

/-- Witness for C9: the nominal no-address environment yields the persisted
token tkn-u2, an empty attempted list, success, and the user marked by the
cycle. -/
theorem empty_address_account_token_and_notify_witness :
    send_renewal_email_to_user okEnv "@u2:test" 3
      = ({ display_name := some "User Two", token := some "tkn-u2", attempted := [] },
         .ok ())
    ∧ send_renewal_emails (fun _ => okEnv) [("@u2:test", 3)] = (["@u2:test"], .ok ()) :=
  empty_address_account_token_and_notify okEnv "@u2:test" 3 "User Two" "tkn-u2"
    rfl rfl rfl

/-- C10: if substituting the app name into the subject template or into the
from template raises, the constructor assigns BOTH bare template strings
verbatim (lines 55-58) and initialization continues — init_email_strings is
total. -/
theorem init_email_strings_fallback (subjT fromT : String)
    (subst : String → Except PyError String)
    (h : (∃ e, subst subjT = .error e) ∨ (∃ e, subst fromT = .error e)) :
    init_email_strings subjT fromT subst = (subjT, fromT) := by
  rcases hs : subst subjT with e1 | v1
  · simp [init_email_strings, hs]
  · rcases hf : subst fromT with e2 | v2
    · simp [init_email_strings, hs, hf]
    · exfalso
      rcases h with ⟨e, he⟩ | ⟨e, he⟩
      · rw [hs] at he
        exact Except.noConfusion he
      · rw [hf] at he
        exact Except.noConfusion he

/-- Witness for C10: a substitution that raises (as the Python % operator does
on an unsupported format character) makes both strings fall back verbatim. -/
theorem init_email_strings_fallback_witness :
    init_email_strings "Renew your %(app)s account" "%(app)s <noreply@example.com>"
        (fun _ => .error (.otherError "unsupported format character"))
      = ("Renew your %(app)s account", "%(app)s <noreply@example.com>") :=
  init_email_strings_fallback _ _ _
    (Or.inl ⟨.otherError "unsupported format character", rfl⟩)
